import Mathlib

/-
Verification of maptk's close_loops_bad_frames_only algorithm
(src/maptk/core/algo/close_loops_bad_frames_only.cxx).

Shallow embedding: doubles are modelled as rationals, frame and track
ids as naturals.  Track objects are shared (mutated in place by
track::append) in the C++ code; we model that aliasing with an explicit
store mapping track ids to observation histories, and track sets as
lists of track ids.  The collaborators that the algorithm consumes as
opaque services (the track set's percentage_tracked / active_tracks
accessors and the feature matcher) are modelled as oracle fields of the
environment record, exactly as the code consumes them.
-/

namespace Maptk

/-- Observation history of a track: the list of frames it was seen on. -/
abbrev History := List Nat

/-- The shared track store: track id to its current observation history.
Models the shared-mutable track_sptr aliasing of the C++ code. -/
abbrev Store := Nat → List Nat

/-- Configuration fields of close_loops_bad_frames_only (constructor,
lines 40-43 of the source). -/
structure BFConfig where
  enabled : Bool
  percentMatchReq : ℚ
  newShotLength : Nat
  maxSearchLength : Nat

/-- The stitch call's environment: the input track set (as the list of
track ids returned by input->tracks(), plus a store of histories) and
the collaborator services the algorithm queries: percentage_tracked,
active_tracks (as the id list of the returned set, also used for its
size()), and the feature matcher's result for each probed frame. -/
structure StitchEnv where
  allTracks : List Nat
  store : Store
  pt : Nat → Nat → ℚ
  active : Nat → List Nat
  matchesFor : Nat → List (Nat × Nat)

/-- Modelled from the spec: track::append (the track class is not under
src/, only its caller is).  The spec says append succeeds only if the
receiving track's history can be legally extended with the other
track's observations (non-overlapping, compatible frame ranges); on
success the receiving history becomes the concatenation of its own plus
the absorbed track's history.  We model compatibility as: the last
observed frame of the receiver precedes the first observed frame of the
absorbed track (vacuously compatible when either is empty). -/
def canAppend (h1 h2 : History) : Bool :=
  match h1.getLast?, h2.head? with
  | some a, some b => decide (a < b)
  | _, _ => true

/-- Point update of the track store (the effect of a successful
track::append on the shared receiving track). -/
def updateStore (st : Store) (r : Nat) (h : History) : Store :=
  fun i => if i = r then h else st i

/-- One iteration of the merge loop (source lines 204-210): look up the
receiving track (test_frame_trks[matches[i].first]) and the absorbed
track (stitch_frame_trks[matches[i].second]); if append succeeds,
extend the receiver's history and record the absorbed track's id in
to_remove, otherwise leave the state untouched. -/
def mergeStep (testIds stitchIds : List Nat) (st : Store × List Nat)
    (m : Nat × Nat) : Store × List Nat :=
  let r := testIds.getD m.1 0
  let a := stitchIds.getD m.2 0
  if canAppend (st.1 r) (st.1 a) then
    (updateStore st.1 r (st.1 r ++ st.1 a), st.2 ++ [a])
  else st

/-- The merge loop over all matcher correspondences (source lines
204-210), threading the mutated store and the to_remove set. -/
def mergeLoop (store : Store) (testIds stitchIds : List Nat)
    (ms : List (Nat × Nat)) : Store × List Nat :=
  ms.foldl (mergeStep testIds stitchIds) (store, [])

/-- Functor to help remove tracks from vector (source lines 134-137):
membership of the track's id in the to_remove set. -/
def track_id_in_set (id : Nat) (toRemove : List Nat) : Bool :=
  toRemove.contains id

/-- The in-place effect of std::remove_if on the vector (source lines
214-215; C++03 copy-assignment semantics, as in the boost-era source):
kept elements are compacted to the front in order; the slots past the
logical end are never written and keep their original values.  The
returned past-the-end iterator is discarded by the source, so the whole
vector, tail included, is what the new simple_track_set receives. -/
def stdRemoveIf {α : Type} (p : α → Bool) (l : List α) : List α :=
  let kept := l.filter (fun x => !p x)
  kept ++ l.drop kept.length

/-- The acceptance test of source line 196:
2*mset->size() >= static_cast<unsigned>(percent_match_req * total_features).
The cast truncates the double product toward zero; for the nonnegative
thresholds for which the cast is defined this is the floor, modelled
with Int.floor on the rational product followed by Int.toNat. -/
def acceptCandidate (req : ℚ) (candSize shotSize nMatches : Nat) : Bool :=
  decide ((Int.toNat ⌊req * (((candSize + shotSize : Nat)) : ℚ)⌋) ≤ 2 * nMatches)

/-- The acceptance test as applied by stitch to a probed frame f
against the shot-start frame (source lines 185-196): sizes are the
active-track populations of the two frames and the match count is the
matcher's output for this probe. -/
def stitchAccept (cfg : BFConfig) (env : StitchEnv) (frameToStitch f : Nat) : Bool :=
  acceptCandidate cfg.percentMatchReq (env.active f).length
    (env.active frameToStitch).length (env.matchesFor f).length

/-- The detector's confirmation loop (source lines 159-164): walk the
given frames in order while stitch_required holds, replacing it at each
frame f by percentage_tracked(f-1, f) >= percent_match_req. -/
def detectLoop (pt : Nat → Nat → ℚ) (req : ℚ) (frames : List Nat)
    (required : Bool) : Bool :=
  match frames with
  | [] => required
  | f :: rest =>
    if required then detectLoop pt req rest (decide (req ≤ pt (f - 1) f))
    else false

/-- The full bad-frame detector decision (source lines 152-164):
initialize required from the weak transition into the candidate shot
start, then confirm every transition through frame_number is strong. -/
def detectRequired (pt : Nat → Nat → ℚ) (req : ℚ) (nsl fn : Nat) : Bool :=
  let s := fn - nsl + 1
  detectLoop pt req (List.range' (s + 1) (fn - s)) (decide (pt (s - 1) s < req))

/-- The frame whose start-of-shot features are to be stitched
(source line 153): frame_number - new_shot_length + 1. -/
def frame_to_stitch (cfg : BFConfig) (fn : Nat) : Nat :=
  fn - cfg.newShotLength + 1

/-- First probed frame of the backward search (source line 173). -/
def search_start (cfg : BFConfig) (fn : Nat) : Nat :=
  frame_to_stitch cfg fn - 2

/-- last_frame_to_test of the backward search (source lines 174-179):
0, or frame_to_test - max_search_length when that stays positive; the
loop probes strictly above it. -/
def search_last (cfg : BFConfig) (fn : Nat) : Nat :=
  if cfg.maxSearchLength < search_start cfg fn then
    search_start cfg fn - cfg.maxSearchLength
  else 0

/-- The backward search loop (source lines 183-220, the accept/return
skeleton): probe descending while probe > last; return the first probe
the acceptance test passes, none when the window is exhausted. -/
def searchLoop (accept : Nat → Bool) : Nat → Nat → Option Nat
  | 0, _ => none
  | probe + 1, last =>
    if last < probe + 1 then
      if accept (probe + 1) then some (probe + 1)
      else searchLoop accept probe last
    else none

/-- The merge step performed on the accepted frame f (source lines
199-218): run the merge loop, then apply the in-place shuffling of
std::remove_if to the copied all_tracks vector when to_remove is
non-empty (the returned iterator is discarded and no erase happens, so
the vector keeps its full length), and return the rebuilt set together
with the mutated store. -/
def mergeAt (env : StitchEnv) (frameToStitch f : Nat) :
    List Nat × Store :=
  let testIds := env.active f
  let stitchIds := env.active frameToStitch
  let res := mergeLoop env.store testIds stitchIds (env.matchesFor f)
  let tracks :=
    if res.2.isEmpty then env.allTracks
    else stdRemoveIf (fun tid => track_id_in_set tid res.2) env.allTracks
  (tracks, res.1)

/-- close_loops_bad_frames_only::stitch (source lines 141-224): the
early-out when disabled or without enough history, the bad-frame
detector, the backward search, and the merge on the first accepted
candidate; every other path returns the input unchanged. -/
def stitch (cfg : BFConfig) (env : StitchEnv) (fn : Nat) : List Nat × Store :=
  if cfg.enabled = false ∨ fn ≤ cfg.newShotLength then (env.allTracks, env.store)
  else if detectRequired env.pt cfg.percentMatchReq cfg.newShotLength fn = false then
    (env.allTracks, env.store)
  else
    match searchLoop (stitchAccept cfg env (frame_to_stitch cfg fn))
        (search_start cfg fn) (search_last cfg fn) with
    | none => (env.allTracks, env.store)
    | some f => mergeAt env (frame_to_stitch cfg fn) f

/-- close_loops_bad_frames_only::check_configuration (source lines
121-130): the nested feature_matcher configuration must be valid and
the absolute value of bf_detection_percent_match_req at most 1. -/
def check_configuration (matcherValid : Bool) (req : ℚ) : Bool :=
  matcherValid && decide (|req| ≤ 1)

/-- Concrete scenario: track 1 (history [1]) is active on frame 1,
track 2 (history [3,4]) is active on frame 3; the transition into frame
3 is weak and the one into frame 4 strong; the matcher pairs the two
frames' single tracks. -/
def store1 : Store :=
  fun i => if i = 1 then [1] else if i = 2 then [3, 4] else []

/-- Environment for the concrete scenario. -/
def env1 : StitchEnv where
  allTracks := [1, 2]
  store := store1
  pt := fun a _ => if a = 2 then 0 else 1
  active := fun f => if f = 1 then [1] else if f = 3 then [2] else []
  matchesFor := fun _ => [(0, 0)]

/-- Default-like configuration with threshold one half. -/
def cfg1 : BFConfig where
  enabled := true
  percentMatchReq := 1 / 2
  newShotLength := 2
  maxSearchLength := 5

/-- Configuration with bad-frame detection switched off. -/
def cfgOff : BFConfig where
  enabled := false
  percentMatchReq := 1 / 2
  newShotLength := 2
  maxSearchLength := 5

/-
General lemmas about the embedded loops.
-/

/-- The detector's confirmation loop yields true exactly when it
started true and every walked transition is strong. -/
theorem detectLoop_spec (pt : Nat → Nat → ℚ) (req : ℚ) (frames : List Nat)
    (r0 : Bool) :
    detectLoop pt req frames r0 = true ↔
      (r0 = true ∧ ∀ f ∈ frames, req ≤ pt (f - 1) f) := by
  induction frames generalizing r0 with
  | nil => simp [detectLoop]
  | cons f rest ih =>
    cases r0 with
    | false => simp [detectLoop]
    | true =>
      simp only [detectLoop, if_true, ih, decide_eq_true_iff, true_and]
      constructor
      · rintro ⟨h1, h2⟩ g hg
        rcases List.mem_cons.mp hg with rfl | hg2
        · exact h1
        · exact h2 g hg2
      · intro h2
        exact ⟨h2 f (List.mem_cons_self f rest),
          fun g hg => h2 g (List.mem_cons_of_mem f hg)⟩

/-- If no frame strictly between last and probe (inclusive) is
accepted, the backward search exhausts its window. -/
theorem searchLoop_none (accept : Nat → Bool) (probe last : Nat)
    (h : ∀ f, last < f → f ≤ probe → accept f = false) :
    searchLoop accept probe last = none := by
  induction probe with
  | zero => rfl
  | succ p ih =>
    simp only [searchLoop]
    split
    · rw [h (p + 1) (by assumption) (Nat.le_refl _)]
      simp only [Bool.false_eq_true, if_false]
      exact ih (fun f hf1 hf2 => h f hf1 (Nat.le_succ_of_le hf2))
    · rfl

/-- If some frame inside the window is accepted, the backward search
returns an accepted frame at least as near to the shot start. -/
theorem searchLoop_finds (accept : Nat → Bool) (probe last f : Nat)
    (h1 : last < f) (h2 : f ≤ probe) (hf : accept f = true) :
    ∃ g, searchLoop accept probe last = some g ∧ f ≤ g ∧ accept g = true := by
  induction probe with
  | zero => omega
  | succ p ih =>
    simp only [searchLoop]
    rw [if_pos (by omega : last < p + 1)]
    cases ha : accept (p + 1) with
    | true => exact ⟨p + 1, by simp, by omega, ha⟩
    | false =>
      simp only [Bool.false_eq_true, if_false]
      have hf2 : f ≤ p := by
        rcases Nat.lt_or_ge f (p + 1) with hlt | hge
        · omega
        · have heq : f = p + 1 := by omega
          rw [heq, ha] at hf
          simp at hf
      exact ih hf2

/-- The in-place std::remove_if shuffling never changes the vector's
length: the erase that would shrink it is missing from the source. -/
theorem stdRemoveIf_length {α : Type} (p : α → Bool) (l : List α) :
    (stdRemoveIf p l).length = l.length := by
  have hle : (l.filter (fun x => !p x)).length ≤ l.length :=
    List.length_filter_le _ _
  simp only [stdRemoveIf, List.length_append, List.length_drop]
  omega

/-
Claim theorems.
-/

/-- C7: if bad-frame detection is disabled or frame_number is at most
new_shot_length, stitch returns the input track set unchanged. -/
theorem stitch_disabled_or_short_noop (cfg : BFConfig) (env : StitchEnv)
    (fn : Nat) (h : cfg.enabled = false ∨ fn ≤ cfg.newShotLength) :
    stitch cfg env fn = (env.allTracks, env.store) := by
  rw [stitch, if_pos h]

/-- Witness for C7: with detection disabled the concrete scenario is
returned unchanged. -/
theorem stitch_disabled_or_short_noop_witness :
    stitch cfgOff env1 4 = (env1.allTracks, env1.store) :=
  stitch_disabled_or_short_noop cfgOff env1 4 (Or.inl rfl)

/-- C8: check_configuration succeeds exactly when the nested matcher
configuration is valid and the absolute value of
bf_detection_percent_match_req is at most 1. -/
theorem check_configuration_iff (m : Bool) (r : ℚ) :
    check_configuration m r = true ↔ (m = true ∧ |r| ≤ 1) := by
  simp [check_configuration]

/-- C3: a candidate whose doubled match count equals the exact product
percent_match_req * (candidate size + shot size) is accepted. -/
theorem accept_boundary_inclusive (req : ℚ) (a b m : Nat)
    (h : ((2 * m : Nat) : ℚ) = req * ((a + b : Nat) : ℚ)) :
    acceptCandidate req a b m = true := by
  simp only [acceptCandidate, decide_eq_true_iff]
  rw [← h, Int.floor_natCast, Int.toNat_natCast]

unseal Rat.mul Rat.inv in
/-- Witness for C3: one match against populations 1 and 3 with a
threshold of one half sits exactly on the boundary and is accepted. -/
theorem accept_boundary_inclusive_witness :
    (((2 * 1 : Nat) : ℚ) = (1 / 2 : ℚ) * ((1 + 3 : Nat) : ℚ)) ∧
      acceptCandidate (1 / 2) 1 3 1 = true :=
  ⟨by decide, accept_boundary_inclusive (1 / 2) 1 3 1 (by decide)⟩

/-- Environment refuting C2's no-truncation reading: on the probed
frame the populations are 3 and 2 and the matcher returns one pair. -/
def envC2 : StitchEnv where
  allTracks := [1, 2, 3, 4, 5]
  store := fun _ => []
  pt := env1.pt
  active := fun f => if f = 1 then [1, 2, 3] else if f = 3 then [4, 5] else []
  matchesFor := fun _ => [(0, 0)]

unseal Rat.mul Rat.inv in
/-- C2 counterexample: the probed frame is accepted by the code (the
cast truncates 5/2 to 2, and 2 matches-doubled reaches 2) although the
doubled match count is strictly below the exact product, so acceptance
is not equivalent to the untruncated comparison. -/
theorem accept_truncation_cex :
    searchLoop (stitchAccept cfg1 envC2 3) 1 0 = some 1 ∧
      ¬(cfg1.percentMatchReq *
          (((envC2.active 1).length + (envC2.active 3).length : Nat) : ℚ) ≤
        ((2 * (envC2.matchesFor 1).length : Nat) : ℚ)) :=
  ⟨by decide, by decide⟩

/-- C2 amended: for the nonnegative thresholds on which the unsigned
cast is defined, a candidate is accepted exactly when its doubled match
count reaches the floor of percent_match_req times the total of the two
active-track populations (the cast truncates the product). -/
theorem accept_floor_iff (req : ℚ) (a b m : Nat) (_h : 0 ≤ req) :
    (acceptCandidate req a b m = true ↔
      ⌊req * ((a + b : Nat) : ℚ)⌋ ≤ ((2 * m : Nat) : ℤ)) := by
  simp only [acceptCandidate, decide_eq_true_iff]
  exact Int.toNat_le

unseal Rat.mul Rat.inv in
/-- Witness for C2's amended acceptance rule at the counterexample's
numbers. -/
theorem accept_floor_iff_witness :
    (0 : ℚ) ≤ 1 / 2 ∧
      (acceptCandidate (1 / 2) 3 2 1 = true ↔
        ⌊(1 / 2 : ℚ) * ((3 + 2 : Nat) : ℚ)⌋ ≤ ((2 * 1 : Nat) : ℤ)) :=
  ⟨by decide, accept_floor_iff (1 / 2) 3 2 1 (by decide)⟩

/-- Tracked-percentage history of the spec's detector sequence test:
the transition from frame 8 into 9 keeps 0.1 of the features, the one
from 9 into 10 keeps 0.5, and all others are strong. -/
def ptSeqA : Nat → Nat → ℚ :=
  fun a _ => if a = 8 then 1 / 10 else if a = 9 then 1 / 2 else 1

/-- The same history but with the transition from 9 into 10 weak. -/
def ptSeqB : Nat → Nat → ℚ :=
  fun a _ => if a = 8 then 1 / 10 else if a = 9 then 1 / 10 else 1

unseal Rat.mul Rat.inv in
/-- C4: the detector reports required exactly when the transition into
shot_start = frame_number - new_shot_length + 1 is weak and every
transition from shot_start + 1 through frame_number is strong; in
particular, with new_shot_length 2, threshold 0.2 and frame 10, the
history with percentage_tracked(8,9) = 0.1 and (9,10) = 0.5 is
required, while the one with (9,10) = 0.1 instead is not. -/
theorem detect_required_iff :
    (∀ (pt : Nat → Nat → ℚ) (req : ℚ) (nsl fn : Nat),
      detectRequired pt req nsl fn = true ↔
        (pt (fn - nsl) (fn - nsl + 1) < req ∧
          ∀ f, fn - nsl + 2 ≤ f → f ≤ fn → req ≤ pt (f - 1) f)) ∧
      detectRequired ptSeqA (1 / 5) 2 10 = true ∧
      detectRequired ptSeqB (1 / 5) 2 10 = false := by
  refine ⟨?_, by decide, by decide⟩
  intro pt req nsl fn
  simp only [detectRequired, detectLoop_spec, decide_eq_true_iff,
    Nat.add_sub_cancel]
  constructor
  · rintro ⟨h1, h2⟩
    refine ⟨h1, fun f hf1 hf2 => h2 f ?_⟩
    rw [List.mem_range'_1]
    omega
  · rintro ⟨h1, h2⟩
    refine ⟨h1, fun f hf => ?_⟩
    rw [List.mem_range'_1] at hf
    exact h2 f (by omega) (by omega)

/-- C5: when the backward search window holds an accepted frame, the
first accepted frame reached by the descending probe is the one handed
to the merge step; in particular, of two accepted candidates the one
nearer the shot start wins regardless of match density, and the search
never continues past its first acceptance. -/
theorem search_nearest_first (cfg : BFConfig) (env : StitchEnv)
    (fn f1 f2 : Nat)
    (hen : cfg.enabled = true) (hfn : cfg.newShotLength < fn)
    (hdet : detectRequired env.pt cfg.percentMatchReq cfg.newShotLength fn = true)
    (hlo : search_last cfg fn < f2) (hlt : f2 < f1)
    (hhi : f1 ≤ search_start cfg fn)
    (ha1 : stitchAccept cfg env (frame_to_stitch cfg fn) f1 = true)
    (_ha2 : stitchAccept cfg env (frame_to_stitch cfg fn) f2 = true) :
    ∃ g, f1 ≤ g ∧ g ≠ f2 ∧
      stitchAccept cfg env (frame_to_stitch cfg fn) g = true ∧
      stitch cfg env fn = mergeAt env (frame_to_stitch cfg fn) g := by
  obtain ⟨g, hg, hfg, hacc⟩ :=
    searchLoop_finds (stitchAccept cfg env (frame_to_stitch cfg fn))
      (search_start cfg fn) (search_last cfg fn) f1 (by omega) hhi ha1
  have h1 : ¬(cfg.enabled = false ∨ fn ≤ cfg.newShotLength) := by
    simp [hen]
    omega
  have h2 : ¬(detectRequired env.pt cfg.percentMatchReq cfg.newShotLength fn
      = false) := by
    simp [hdet]
  refine ⟨g, hfg, by omega, hacc, ?_⟩
  rw [stitch, if_neg h1, if_neg h2, hg]

/-- Scenario with two acceptable candidates in the window: frames 2 and
1 both match the shot-start frame 4 densely enough. -/
def envC5 : StitchEnv where
  allTracks := [1, 2, 3]
  store := fun i =>
    if i = 1 then [2] else if i = 2 then [1] else if i = 3 then [4, 5] else []
  pt := fun a _ => if a = 3 then 0 else 1
  active := fun f =>
    if f = 4 then [3] else if f = 2 then [1] else if f = 1 then [2] else []
  matchesFor := fun _ => [(0, 0)]

unseal Rat.mul Rat.inv in
/-- Witness for C5: with candidates 2 and 1 both acceptable, stitch
merges with a frame no farther than 2, never with frame 1. -/
theorem search_nearest_first_witness :
    ∃ g, 2 ≤ g ∧ g ≠ 1 ∧
      stitchAccept cfg1 envC5 (frame_to_stitch cfg1 5) g = true ∧
      stitch cfg1 envC5 5 = mergeAt envC5 (frame_to_stitch cfg1 5) g :=
  search_nearest_first cfg1 envC5 5 2 1 rfl (by decide) (by decide)
    (by decide) (by decide) (by decide) (by decide) (by decide)

/-- C6: when the detector requires a repair but no frame in the window
from shot_start - 2 - max_search_length to shot_start - 2 passes the
acceptance test, stitch returns the input track set unchanged: an
exhausted search is a successful no-op. -/
theorem stitch_exhausted_noop (cfg : BFConfig) (env : StitchEnv) (fn : Nat)
    (_hdet : detectRequired env.pt cfg.percentMatchReq cfg.newShotLength fn
      = true)
    (hnone : ∀ f, frame_to_stitch cfg fn - 2 - cfg.maxSearchLength ≤ f →
      f ≤ frame_to_stitch cfg fn - 2 →
      stitchAccept cfg env (frame_to_stitch cfg fn) f = false) :
    stitch cfg env fn = (env.allTracks, env.store) := by
  have hs : searchLoop (stitchAccept cfg env (frame_to_stitch cfg fn))
      (search_start cfg fn) (search_last cfg fn) = none := by
    apply searchLoop_none
    intro f hf1 hf2
    apply hnone f ?_ hf2
    simp only [search_last, search_start] at hf1
    split at hf1 <;> omega
  rw [stitch]
  split
  · rfl
  · split
    · rfl
    · rw [hs]

/-- Scenario whose window is exhausted: the matcher finds no pairs, so
no candidate frame can be accepted. -/
def envC6 : StitchEnv where
  allTracks := [1, 2]
  store := store1
  pt := env1.pt
  active := fun f => if f = 3 then [2] else [1]
  matchesFor := fun _ => []

unseal Rat.mul Rat.inv in
/-- Witness for C6: the exhausted concrete scenario returns its input
unchanged. -/
theorem stitch_exhausted_noop_witness :
    stitch cfg1 envC6 4 = (envC6.allTracks, envC6.store) :=
  stitch_exhausted_noop cfg1 envC6 4 (by decide)
    (fun f _ hf2 => by
      have hb : f ≤ 1 := by simpa [frame_to_stitch, cfg1] using hf2
      interval_cases f <;> decide)

/-- C9: a match pair whose append fails contributes nothing to the
merge: the absorbed track id is not recorded as retired, the store is
untouched, and the loop continues with the remaining matches exactly as
if the failing pair were absent; in a total-function embedding the
stitch therefore still completes and returns a merged track set. -/
theorem merge_append_failure_skipped (store : Store) (t s : List Nat)
    (ms1 ms2 : List (Nat × Nat)) (m : Nat × Nat)
    (h : canAppend ((mergeLoop store t s ms1).1 (t.getD m.1 0))
      ((mergeLoop store t s ms1).1 (s.getD m.2 0)) = false) :
    mergeLoop store t s (ms1 ++ m :: ms2) = mergeLoop store t s (ms1 ++ ms2) := by
  simp only [mergeLoop] at h ⊢
  rw [List.foldl_append, List.foldl_append, List.foldl_cons]
  congr 1
  simp only [mergeStep]
  rw [h]
  simp

/-- Store for the failing-append scenario: the receiving track already
extends past the absorbed track's first observation. -/
def storeC9 : Store := fun i => if i = 1 then [5] else if i = 2 then [3] else []

/-- Witness for C9: a failing append leaves the merge state exactly as
if its match were dropped. -/
theorem merge_append_failure_skipped_witness :
    mergeLoop storeC9 [1] [2] ([] ++ (0, 0) :: []) =
      mergeLoop storeC9 [1] [2] ([] ++ []) :=
  merge_append_failure_skipped storeC9 [1] [2] [] [] (0, 0) (by decide)

/-- C10: every stitch call that reaches the merge step (detection fired
and the backward search accepted a frame) returns a track list of
exactly the input's length: the discarded std::remove_if result never
shrinks the vector, so merging never changes the number of enumerable
tracks. -/
theorem stitch_preserves_track_count (cfg : BFConfig) (env : StitchEnv)
    (fn f : Nat)
    (hen : cfg.enabled = true) (hfn : cfg.newShotLength < fn)
    (hdet : detectRequired env.pt cfg.percentMatchReq cfg.newShotLength fn
      = true)
    (hsearch : searchLoop (stitchAccept cfg env (frame_to_stitch cfg fn))
      (search_start cfg fn) (search_last cfg fn) = some f) :
    (stitch cfg env fn).1.length = env.allTracks.length := by
  have h1 : ¬(cfg.enabled = false ∨ fn ≤ cfg.newShotLength) := by
    simp [hen]
    omega
  rw [stitch, if_neg h1, if_neg (by simp [hdet]), hsearch]
  simp only [mergeAt]
  split
  · rfl
  · exact stdRemoveIf_length _ _

unseal Rat.mul Rat.inv in
/-- Witness for C10: the concrete merging scenario keeps both track
entries. -/
theorem stitch_preserves_track_count_witness :
    (stitch cfg1 env1 4).1.length = env1.allTracks.length :=
  stitch_preserves_track_count cfg1 env1 4 1 rfl (by decide) (by decide)
    (by decide)

unseal Rat.mul Rat.inv in
/-- C1 (code bug): in the concrete merging scenario the match between
the candidate frame's track 1 and the shot-start frame's track 2
succeeds, so id 2 is recorded as retired and track 1's history becomes
the concatenation [1] ++ [3, 4]; yet the returned track list still
enumerates the retired id 2 (and is [1, 2], the whole unshrunk vector),
because the source discards the result of std::remove_if and never
erases: the claim's "no track whose id was retired is enumerable"
is violated by the code. -/
theorem stitch_retired_id_still_enumerable :
    (mergeLoop env1.store (env1.active 1) (env1.active 3)
        (env1.matchesFor 1)).2 = [2] ∧
      (stitch cfg1 env1 4).1 = [1, 2] ∧
      2 ∈ (stitch cfg1 env1 4).1 ∧
      (stitch cfg1 env1 4).2 1 = [1, 3, 4] :=
  ⟨by decide, by decide, by decide, by decide⟩

end Maptk
